import Mathlib

/-!
Verification development for the SafeWalk-SF session-event record/replay
subsystem (cache recorder, cache player, cache storage, and the live
WebSocket event handler feeding the agent-state store).

The TypeScript sources are shallowly embedded as pure Lean functions:
  * JavaScript dynamic values (the `Record<string, unknown>` payloads) are
    modelled by the inductive `JsVal`; `undefined` / absent keys are
    modelled by `Option`, while JavaScript `null` is the value `JsVal.null`.
  * `Date.now()` / `new Date().toISOString()` are passed in explicitly as a
    `Clock` argument (an integer millisecond count and its ISO rendering).
  * `localStorage` is an association list of keys to stored strings, where a
    stored string is represented by what it parses to (`StoredStr`).
  * The mutable `events` array of a recorder is modelled with an explicit
    heap of array cells, so that reference sharing (aliasing) is expressible.
  * Code that can throw is modelled with `Except`; a `try`/`catch` becomes a
    `match` on the `Except` value.
-/

/-- JavaScript runtime value, as far as the embedded code observes it.
`null` is an explicit value; `undefined` is represented by `Option.none`
at the use sites. -/
inductive JsVal where
  | null : JsVal
  | bool (b : Bool) : JsVal
  | num (q : ℚ) : JsVal
  | str (s : String) : JsVal
  | arr (elems : List JsVal) : JsVal
  | obj (fields : List (String × JsVal)) : JsVal

/-- JavaScript truthiness of a defined value: `null`, `false`, `0` and the
empty string are falsy; arrays and objects are always truthy. -/
def jsTruthy : JsVal → Bool
  | JsVal.null => false
  | JsVal.bool b => b
  | JsVal.num q => q != 0
  | JsVal.str s => s != ""
  | JsVal.arr _ => true
  | JsVal.obj _ => true

/-- Truthiness of a possibly-undefined value (`undefined` is falsy). -/
def truthyO : Option JsVal → Bool
  | none => false
  | some v => jsTruthy v

/-- The JavaScript expression `a || b` for a possibly-undefined `a` and a
defined default `b`. -/
def jsOr (a : Option JsVal) (b : JsVal) : JsVal :=
  match a with
  | none => b
  | some v => if jsTruthy v then v else b

/-- The JavaScript expression `a || b` where both sides may be undefined. -/
def jsOrO (a b : Option JsVal) : Option JsVal :=
  if truthyO a then a else b

/-- Truthiness of a possibly-undefined string (`undefined` and `""` falsy). -/
def strTruthy : Option String → Bool
  | none => false
  | some s => s != ""

/-- The JavaScript expression `a || b` for strings, e.g.
`message.tool_name || 'unknown'`. -/
def strOr (a : Option String) (b : String) : String :=
  match a with
  | none => b
  | some s => if s = "" then b else s

/-- The event taxonomy of `src/web/lib/cache/types.ts` (`CacheEventType`).
These are exactly the recordable types listed in the live handler's
`recordableTypes`, so a recording only ever contains these. -/
inductive EventType where
  | session_started
  | agent_spawned
  | tool_called
  | tool_result
  | data_received
  | agent_complete
  | session_complete
  | session_error
  | final_result
deriving DecidableEq, Repr

/-- The `final_response` object carried by a `session_complete` event, with
the fields the handlers project out of it.  Each field may be absent
(JavaScript `undefined`). -/
structure FinalResponse where
  safety_score : Option JsVal := none
  rating : Option JsVal := none
  analysis : Option JsVal := none
  summary : Option JsVal := none
  recommendations : Option JsVal := none
  coordinates : Option JsVal := none
  data : Option JsVal := none
  sql : Option JsVal := none
  incident_breakdown : Option JsVal := none

/-- The payload record (`Record<string, unknown>`) of an event, restricted
to the keys that the live handler (`handleEvent`) and the replay handler
(`processEvent`) actually read.  Absent keys are `none`.  The `data` and
`coordinates` keys are shared between the `tool_result` fallback chain and
the `final_result` extraction, exactly as in the source where they are the
same properties of one message object. -/
structure EvData where
  request_id : Option String := none
  description : Option String := none
  agent_id : Option String := none
  agent_type : Option String := none
  input_id : Option String := none
  tool_name : Option String := none
  tool_input : Option JsVal := none
  row_count : Option JsVal := none
  tool_result : Option JsVal := none
  data : Option JsVal := none
  coordinates : Option JsVal := none
  output_summary : Option JsVal := none
  status : Option String := none
  duration_ms : Option JsVal := none
  flow_trace : Option (List String) := none
  final_response : Option FinalResponse := none
  error : Option String := none
  safety_score : Option JsVal := none
  rating : Option JsVal := none
  analysis : Option JsVal := none
  summary : Option JsVal := none
  recommendations : Option JsVal := none
  sql : Option JsVal := none
  incident_breakdown : Option JsVal := none

/-- `CacheEvent` of `src/web/lib/cache/types.ts`: one recorded occurrence.
`delay` is milliseconds since the previous event (a JavaScript number,
modelled as a rational). -/
structure CacheEvent where
  type : EventType
  data : EvData
  timestamp : Int
  delay : ℚ

/-- `SessionCache` of `src/web/lib/cache/types.ts`, as a plain value (the
shape stored in and parsed back from `localStorage`). -/
structure SessionCache where
  promptHash : String
  prompt : String
  events : List CacheEvent
  recordedAt : String
  totalDuration : Int
  isComplete : Bool

/-- A `Date.now()` reading paired with the `toISOString()` rendering of the
same instant; passed explicitly wherever the source reads the clock. -/
structure Clock where
  now : Int
  iso : String

/-- `ToolCall` of `src/web/types/agent.ts` as used by both handlers.
`rowCount` and `result` start absent; `result` distinguishes an attached
JavaScript `null` (`some JsVal.null`) from a never-attached field (`none`). -/
structure ToolCall where
  id : String
  name : String
  input : JsVal
  status : String
  rowCount : Option JsVal := none
  result : Option JsVal := none

/-- `Agent` of `src/web/types/agent.ts` as used by both handlers.  `id` is
optional because the replay path can store an agent whose `id` is the
(possibly undefined) stored `agent_id`, and `status` is optional because
the live `agent_complete` case can write an undefined status through
`updateAgent`. -/
structure Agent where
  id : Option String
  type : String
  description : Option String
  status : Option String
  inputId : Option String := none
  toolCalls : List ToolCall
  startedAt : String
  completedAt : Option String := none
  output : Option JsVal := none

/-- `SafetyResult` as assembled by `setFinalResult` call sites.  Fields
built with a `|| default` fallback are total; the rest may be undefined. -/
structure SafetyResult where
  safetyScore : Option JsVal
  rating : Option JsVal
  analysis : Option JsVal
  summary : Option JsVal
  recommendations : JsVal
  coordinates : JsVal
  data : JsVal
  sql : Option JsVal
  incident_breakdown : Option JsVal

/-- The Zustand agent store state (`src/web/store/agentStore.ts`). -/
structure StoreState where
  sessionId : Option String
  sessionStatus : String
  sessionError : Option String
  startTime : Option Int
  duration : Option JsVal
  agents : List Agent
  finalResult : Option SafetyResult
  flowTrace : List String

/-- `initialState` of the agent store. -/
def initialState : StoreState :=
  { sessionId := none
    sessionStatus := "idle"
    sessionError := none
    startTime := none
    duration := none
    agents := []
    finalResult := none
    flowTrace := [] }

/-- Store action `setSessionStatus(status, sessionId?, error?)`:
`sessionId ?? get().sessionId` keeps the old id when none is supplied, and
`error ?? null` clears the error when none is supplied. -/
def setSessionStatus (s : StoreState) (status : String)
    (sessionId : Option String) (error : Option String) : StoreState :=
  { s with
    sessionStatus := status
    sessionId := match sessionId with | some v => some v | none => s.sessionId
    sessionError := error }

/-- Store action `setStartTime`. -/
def setStartTime (s : StoreState) (time : Int) : StoreState :=
  { s with startTime := some time }

/-- Store action `setDuration`. -/
def setDuration (s : StoreState) (duration : JsVal) : StoreState :=
  { s with duration := some duration }

/-- Store action `addAgent`: appends to the agents list. -/
def addAgent (s : StoreState) (agent : Agent) : StoreState :=
  { s with agents := s.agents ++ [agent] }

/-- Store action `updateAgent(agentId, updates)`, specialized to the one
call site shape (the `agent_complete` handlers), whose partial update
carries exactly the keys `status`, `completedAt` and `output`; a spread of
that partial overwrites all three fields, even with undefined values. -/
def updateAgent (s : StoreState) (agentId : String) (status : Option String)
    (completedAt : String) (output : Option JsVal) : StoreState :=
  { s with
    agents := s.agents.map fun a =>
      if a.id == some agentId then
        { a with status := status, completedAt := some completedAt, output := output }
      else a }

/-- Store action `addToolCall`: appends a tool call to the matching agent. -/
def addToolCall (s : StoreState) (agentId : String) (toolCall : ToolCall) : StoreState :=
  { s with
    agents := s.agents.map fun a =>
      if a.id == some agentId then { a with toolCalls := a.toolCalls ++ [toolCall] }
      else a }

/-- Store action `completeToolCall(agentId, toolCallId, result)`, specialized
to its two call sites: the partial always carries `rowCount`; the live call
site also carries a `result` key (`resultKey = some value`) while the replay
call site omits it (`resultKey = none`, leaving the field untouched).  The
store forces `status := "complete"` after spreading the partial. -/
def completeToolCall (s : StoreState) (agentId : String) (toolCallId : String)
    (rowCount : Option JsVal) (resultKey : Option (Option JsVal)) : StoreState :=
  { s with
    agents := s.agents.map fun a =>
      if a.id == some agentId then
        { a with
          toolCalls := a.toolCalls.map fun tc =>
            if tc.id == toolCallId then
              { tc with
                rowCount := rowCount
                result := match resultKey with | some r => r | none => tc.result
                status := "complete" }
            else tc }
      else a }

/-- Store action `setFinalResult`. -/
def setFinalResult (s : StoreState) (result : SafetyResult) : StoreState :=
  { s with finalResult := some result }

/-- Store action `setFlowTrace`. -/
def setFlowTrace (s : StoreState) (trace : List String) : StoreState :=
  { s with flowTrace := trace }

/-- The guard pattern `if (x) { body(x as string) }` for an optional string:
runs the body only when the value is truthy. -/
def ifTruthy {α : Type} (o : Option String) (dflt : α) (f : String → α) : α :=
  match o with
  | none => dflt
  | some v => if v = "" then dflt else f v

/-- The guard pattern `if (x) { body(x) }` for an optional value. -/
def ifTruthyV {α : Type} (o : Option JsVal) (dflt : α) (f : JsVal → α) : α :=
  match o with
  | none => dflt
  | some v => if jsTruthy v then f v else dflt

/-- The live event handler `handleEvent` of the WebSocket hook, restricted
to its switch cases for the recordable event taxonomy (the recorder side
effect and the console logging are not part of the agent-store state and
are modelled elsewhere / not at all).  The clock stands for the `Date.now()`
and `toISOString()` reads in the handler body. -/
def handleEvent (clock : Clock) (t : EventType) (m : EvData) (s : StoreState) : StoreState :=
  match t with
  | EventType.session_started =>
      let s1 := setSessionStatus s "running" m.request_id none
      let s2 := setStartTime s1 clock.now
      addAgent s2
        { id := some (strOr m.request_id "orchestrator")
          type := "orchestrator"
          description := some (strOr m.description "Processing query")
          status := some "running"
          toolCalls := []
          startedAt := clock.iso }
  | EventType.agent_spawned =>
      addAgent s
        { id := some (strOr m.agent_id ("agent-" ++ toString clock.now))
          type := strOr m.agent_type "data-agent"
          description := m.description
          status := some "running"
          inputId := m.input_id
          toolCalls := []
          startedAt := clock.iso }
  | EventType.tool_called =>
      let toolCall : ToolCall :=
        { id := "tool-" ++ toString clock.now
          name := strOr m.tool_name "unknown"
          input := jsOr m.tool_input (JsVal.obj [])
          status := "running" }
      ifTruthy m.agent_id s fun aid => addToolCall s aid toolCall
  | EventType.tool_result =>
      ifTruthy m.agent_id s fun aid =>
        let agents := s.agents
        let agent? := agents.find? fun a => a.id == some aid
        let runningTool? : Option ToolCall :=
          match agent? with
          | some agent => agent.toolCalls.find? fun tc => tc.status == "running"
          | none => none
        match runningTool? with
        | some runningTool =>
            let resultData := jsOr m.tool_result (jsOr m.data (jsOr m.coordinates JsVal.null))
            completeToolCall s aid runningTool.id m.row_count (some (some resultData))
        | none => s
  | EventType.data_received => s
  | EventType.agent_complete =>
      ifTruthy m.agent_id s fun aid =>
        updateAgent s aid
          (if m.status == some "completed" then some "complete" else m.status)
          clock.iso m.output_summary
  | EventType.session_complete =>
      let s1 := setSessionStatus s "complete" none none
      let s2 := ifTruthyV m.duration_ms s1 fun d => setDuration s1 d
      let s3 := match m.flow_trace with
        | some tr => setFlowTrace s2 tr
        | none => s2
      match m.final_response with
      | some fr =>
          setFinalResult s3
            { safetyScore := fr.safety_score
              rating := fr.rating
              analysis := jsOrO fr.analysis fr.summary
              summary := fr.summary
              recommendations := jsOr fr.recommendations (JsVal.arr [])
              coordinates := jsOr fr.coordinates (JsVal.arr [])
              data := jsOr fr.data (JsVal.arr [])
              sql := fr.sql
              incident_breakdown := fr.incident_breakdown }
      | none => s3
  | EventType.session_error =>
      setSessionStatus s "error" none m.error
  | EventType.final_result =>
      let s1 := setSessionStatus s "complete" none none
      let s2 := ifTruthyV m.duration_ms s1 fun d => setDuration s1 d
      let s3 := match m.flow_trace with
        | some tr => setFlowTrace s2 tr
        | none => s2
      setFinalResult s3
        { safetyScore := m.safety_score
          rating := m.rating
          analysis := jsOrO m.analysis m.summary
          summary := m.summary
          recommendations := jsOr m.recommendations (JsVal.arr [])
          coordinates := jsOr m.coordinates (JsVal.arr [])
          data := jsOr m.data (JsVal.arr [])
          sql := m.sql
          incident_breakdown := m.incident_breakdown }

/-- The replay event handler `processEvent` of `src/web/lib/cache/player.ts`.
Its switch has no `data_received` case, so that type falls through with no
state effect. -/
def processEvent (clock : Clock) (event : CacheEvent) (s : StoreState) : StoreState :=
  let d := event.data
  match event.type with
  | EventType.session_started =>
      let s1 := setSessionStatus s "running" d.request_id none
      addAgent s1
        { id := some (strOr d.request_id "orchestrator")
          type := "orchestrator"
          description := some (strOr d.description "Processing query")
          status := some "running"
          toolCalls := []
          startedAt := clock.iso }
  | EventType.agent_spawned =>
      addAgent s
        { id := d.agent_id
          type := strOr d.agent_type "data-agent"
          description := d.description
          status := some "running"
          inputId := d.input_id
          toolCalls := []
          startedAt := clock.iso }
  | EventType.tool_called =>
      ifTruthy d.agent_id s fun aid =>
        addToolCall s aid
          { id := "tool-" ++ toString clock.now
            name := strOr d.tool_name "unknown"
            input := jsOr d.tool_input (JsVal.obj [])
            status := "running" }
  | EventType.tool_result =>
      ifTruthy d.agent_id s fun aid =>
        let agents := s.agents
        let agent? := agents.find? fun a => a.id == some aid
        let runningTool? : Option ToolCall :=
          match agent? with
          | some agent => agent.toolCalls.find? fun tc => tc.status == "running"
          | none => none
        match runningTool? with
        | some runningTool =>
            completeToolCall s aid runningTool.id d.row_count none
        | none => s
  | EventType.data_received => s
  | EventType.agent_complete =>
      ifTruthy d.agent_id s fun aid =>
        updateAgent s aid (some "complete") clock.iso d.output_summary
  | EventType.session_complete =>
      let s1 := setSessionStatus s "complete" none none
      let s2 := ifTruthyV d.duration_ms s1 fun dur => setDuration s1 dur
      let s3 := match d.flow_trace with
        | some tr => setFlowTrace s2 tr
        | none => s2
      match d.final_response with
      | some fr =>
          setFinalResult s3
            { safetyScore := fr.safety_score
              rating := fr.rating
              analysis := jsOrO fr.analysis fr.summary
              summary := fr.summary
              recommendations := jsOr fr.recommendations (JsVal.arr [])
              coordinates := jsOr fr.coordinates (JsVal.arr [])
              data := jsOr fr.data (JsVal.arr [])
              sql := fr.sql
              incident_breakdown := fr.incident_breakdown }
      | none => s3
  | EventType.session_error =>
      setSessionStatus s "error" none d.error
  | EventType.final_result =>
      let s1 := setSessionStatus s "complete" none none
      let s2 := ifTruthyV d.duration_ms s1 fun dur => setDuration s1 dur
      let s3 := match d.flow_trace with
        | some tr => setFlowTrace s2 tr
        | none => s2
      setFinalResult s3
        { safetyScore := d.safety_score
          rating := d.rating
          analysis := jsOrO d.analysis d.summary
          summary := d.summary
          recommendations := jsOr d.recommendations (JsVal.arr [])
          coordinates := jsOr d.coordinates (JsVal.arr [])
          data := jsOr d.data (JsVal.arr [])
          sql := d.sql
          incident_breakdown := d.incident_breakdown }

/-- REPLAY_SPEED of `player.ts` (a sub-1.0 speed multiplier). -/
def REPLAY_SPEED : ℚ := 0.15

/-- MIN_DELAY of `player.ts` (floor on a scaled inter-event wait, ms). -/
def MIN_DELAY : ℤ := 50

/-- MAX_DELAY of `player.ts` (ceiling on a scaled inter-event wait, ms). -/
def MAX_DELAY : ℤ := 800

/-- JavaScript `Math.round`: round half toward positive infinity. -/
def jsRound (x : ℚ) : ℤ := ⌊x + 1/2⌋

/-- `scaleDelay` of `player.ts`:
`Math.max(MIN_DELAY, Math.min(MAX_DELAY, Math.round(originalDelay * REPLAY_SPEED)))`. -/
def scaleDelay (originalDelay : ℚ) : ℤ :=
  let scaled := jsRound (originalDelay * REPLAY_SPEED)
  max MIN_DELAY (min MAX_DELAY scaled)

/-- The state effect of the `replayCache` loop body: each event is handed to
`processEvent` once, in list order (the awaited sleeps do not touch state). -/
def replayLoop (clock : Clock) : List CacheEvent → StoreState → StoreState
  | [], s => s
  | e :: rest, s => replayLoop clock rest (processEvent clock e s)

/-- `replayCache` of `player.ts`, as its total effect on the agent store:
`setStartTime(Date.now())` followed by the event loop. -/
def replayCache (clock : Clock) (cache : SessionCache) (s : StoreState) : StoreState :=
  replayLoop clock cache.events (setStartTime s clock.now)

/-- The wait schedule of the `replayCache` loop: the event at index 0 is
processed with no wait, and every later event is preceded by a suspension
of `scaleDelay` applied to its stored `delay`. -/
def replaySchedule (events : List CacheEvent) : List (ℤ × CacheEvent) :=
  match events with
  | [] => []
  | e :: rest => (0, e) :: rest.map fun ev => (scaleDelay ev.delay, ev)

/-- JavaScript `toLowerCase`, restricted to the per-character mapping (the
claims do not depend on locale-specific multi-character mappings). -/
def jsToLowerCase (s : String) : String := String.mk (s.data.map Char.toLower)

/-- JavaScript `trim`: strip leading and trailing whitespace. -/
def jsTrim (s : String) : String :=
  String.mk (((s.data.dropWhile Char.isWhitespace).reverse.dropWhile
    Char.isWhitespace).reverse)

/-- Wrap an integer into JavaScript 32-bit signed range (the effect of a
bitwise operation such as `hash & hash` or `<<`). -/
def toInt32 (n : Int) : Int := (n + 2 ^ 31) % 2 ^ 32 - 2 ^ 31

/-- One step of the rolling hash of `hashPrompt`:
`hash = ((hash << 5) - hash) + charCode; hash = hash & hash`.  The shift
wraps to 32 bits, the sum is exact double arithmetic, and the final bitwise
and wraps the sum back to 32 bits. -/
def hashStep (hash : Int) (charCode : Nat) : Int :=
  toInt32 (toInt32 (hash * 32) - hash + charCode)

/-- Digit character of `Number.prototype.toString(36)`. -/
def base36Digit (n : Nat) : Char :=
  if n < 10 then Char.ofNat (48 + n) else Char.ofNat (87 + n)

/-- Base-36 rendering, with enough fuel for any 32-bit magnitude (a 32-bit
value has at most seven base-36 digits). -/
def natToBase36Aux : Nat → Nat → List Char → List Char
  | 0, _, acc => acc
  | fuel + 1, n, acc =>
      if n < 36 then base36Digit n :: acc
      else natToBase36Aux fuel (n / 36) (base36Digit (n % 36) :: acc)

/-- `Math.abs(hash).toString(36)`. -/
def natToBase36 (n : Nat) : String := String.mk (natToBase36Aux 8 n [])

/-- `hashPrompt` of `src/web/lib/cache/storage.ts`: rolling 32-bit hash over
the character codes, absolute value, base-36 text.  Characters are taken as
unicode scalar values (the claims do not depend on surrogate-pair
differences from UTF-16 code units). -/
def hashPrompt (prompt : String) : String :=
  natToBase36 (prompt.data.foldl (fun h c => hashStep h c.toNat) 0).natAbs

/-- What a string stored in `localStorage` parses to: a JSON value of
session-recording shape, a JSON array of strings (the index), or anything
else.  A stored value that is JSON but not of the shape the reader needs
behaves, through the reader's catch-all, exactly like unparseable data, so
both are covered by reading it as the wrong constructor / `garbage`. -/
inductive StoredStr where
  | jsonCache (c : SessionCache)
  | jsonIndex (l : List String)
  | garbage

/-- The browser `localStorage`: an association list from keys to stored
strings, insertion ordered, unique keys. -/
def LocalStorage : Type := List (String × StoredStr)

/-- `localStorage.getItem`. -/
def getItem : LocalStorage → String → Option StoredStr
  | [], _ => none
  | (k, v) :: rest, key => if k = key then some v else getItem rest key

/-- `localStorage.setItem`: replaces the value under an existing key in
place, otherwise appends a new entry.  Quota failures are outside the
model. -/
def setItem : LocalStorage → String → StoredStr → LocalStorage
  | [], key, v => [(key, v)]
  | (k, w) :: rest, key, v =>
      if k = key then (key, v) :: rest else (k, w) :: setItem rest key v

/-- The execution environment of the storage module: whether `window` is
defined (browser vs server rendering), the static
`NEXT_PUBLIC_CACHE_ENABLED === 'true'` flag, and the storage contents. -/
structure Env where
  windowDefined : Bool
  cacheEnabledFlag : Bool
  store : LocalStorage

/-- The storage key namespace `CACHE_PREFIX` of `storage.ts`. -/
def cacheKeyBase : String := "safesf_cache_"

/-- The secondary-index key `CACHE_INDEX_KEY` of `storage.ts`. -/
def cacheIndexKey : String := "safesf_cache_index"

/-- `isCacheEnabled` of `storage.ts`. -/
def isCacheEnabled (env : Env) : Bool :=
  if !env.windowDefined then false else env.cacheEnabledFlag

/-- `JSON.parse` of a stored string read back as a `SessionCache`; throwing
is an `Except.error`. -/
def parseCache : StoredStr → Except Unit SessionCache
  | StoredStr.jsonCache c => Except.ok c
  | _ => Except.error ()

/-- `indexStr ? JSON.parse(indexStr) : []` read back as a string list; a
value of the wrong shape throws at the subsequent array-method call and is
caught by the same handler, so it is modelled as the parse throwing. -/
def parseIndex : Option StoredStr → Except Unit (List String)
  | none => Except.ok []
  | some (StoredStr.jsonIndex l) => Except.ok l
  | some _ => Except.error ()

/-- The `try` block of `getCache` after the key is computed: read, parse,
and apply the validity gate
`!session.isComplete || !session.events || session.events.length === 0`. -/
def getCacheTry (store : LocalStorage) (key : String) : Except Unit (Option SessionCache) :=
  match getItem store key with
  | none => Except.ok none
  | some cached =>
      match parseCache cached with
      | Except.error e => Except.error e
      | Except.ok session =>
          if !session.isComplete || session.events.isEmpty then Except.ok none
          else Except.ok (some session)

/-- `getCache` of `storage.ts`: absent off-browser; otherwise hash the
normalized prompt, run the `try` block, and degrade any thrown error to
absent in the `catch`. -/
def getCache (env : Env) (prompt : String) : Option SessionCache :=
  if !env.windowDefined then none
  else
    let hash := hashPrompt (jsTrim (jsToLowerCase prompt))
    let key := cacheKeyBase ++ hash
    match getCacheTry env.store key with
    | Except.ok r => r
    | Except.error _ => none

/-- The storage effect of `saveCache` of `storage.ts`: write the serialized
recording under its hash key, then read-modify-write the secondary index,
appending the hash only when it is not already present.  A throw while
handling the index is caught after the entry write has already happened,
leaving only the entry write in place. -/
def saveCacheStore (store : LocalStorage) (cache : SessionCache) : LocalStorage :=
  let key := cacheKeyBase ++ cache.promptHash
  let store1 := setItem store key (StoredStr.jsonCache cache)
  match parseIndex (getItem store1 cacheIndexKey) with
  | Except.error _ => store1
  | Except.ok index =>
      if index.contains cache.promptHash then store1
      else setItem store1 cacheIndexKey
        (StoredStr.jsonIndex (index ++ [cache.promptHash]))

/-- `saveCache` of `storage.ts`: a no-op off-browser, otherwise the storage
effect above (console logging and quota failures aside). -/
def saveCache (env : Env) (cache : SessionCache) : Env :=
  if !env.windowDefined then env
  else { env with store := saveCacheStore env.store cache }

/-- The body of the mapper in `listCachedPrompts`: a missing entry yields
the empty string, a present entry is parsed (which may throw) and yields
its `prompt`. -/
def loadPrompt (store : LocalStorage) (hash : String) : Except Unit String :=
  match getItem store (cacheKeyBase ++ hash) with
  | none => Except.ok ""
  | some cached =>
      match parseCache cached with
      | Except.error e => Except.error e
      | Except.ok session => Except.ok session.prompt

/-- `index.map(...)` over `loadPrompt`: a throw on any element aborts the
whole traversal (JavaScript `map` has no per-element handler here). -/
def mapPrompts (store : LocalStorage) : List String → Except Unit (List String)
  | [] => Except.ok []
  | h :: t =>
      match loadPrompt store h with
      | Except.error e => Except.error e
      | Except.ok p =>
          match mapPrompts store t with
          | Except.error e => Except.error e
          | Except.ok ps => Except.ok (p :: ps)

/-- `listCachedPrompts` of `storage.ts`: parse the index, map each hash to
its entry's prompt, keep the truthy (non-empty) ones; any throw anywhere is
caught by the single surrounding handler and yields the empty list. -/
def listCachedPrompts (env : Env) : List String :=
  if !env.windowDefined then []
  else
    match parseIndex (getItem env.store cacheIndexKey) with
    | Except.error _ => []
    | Except.ok index =>
        match mapPrompts env.store index with
        | Except.error _ => []
        | Except.ok prompts => prompts.filter fun p => p != ""

/-- A heap of mutable event arrays, so that reference sharing between a
recorder's `events` array and a recording built from it is expressible.  A
cell index stands for a JavaScript array reference. -/
structure Heap where
  cells : List (List CacheEvent)

/-- Read an array through its reference. -/
def readCell (h : Heap) (r : Nat) : List CacheEvent := h.cells.getD r []

/-- Overwrite the array behind a reference (an in-place mutation such as
`push`). -/
def writeCell (h : Heap) (r : Nat) (v : List CacheEvent) : Heap :=
  ⟨h.cells.set r v⟩

/-- Allocate a fresh array. -/
def allocCell (h : Heap) (v : List CacheEvent) : Heap × Nat :=
  (⟨h.cells ++ [v]⟩, h.cells.length)

/-- `CacheRecorder` of `src/web/lib/cache/types.ts`; `eventsRef` is the
reference to its mutable `events` array. -/
structure CacheRecorder where
  promptHash : String
  prompt : String
  eventsRef : Nat
  startTime : Int
  lastEventTime : Int
  isFinalized : Bool

/-- The in-memory `SessionCache` object built by `finalizeRecording`,
before serialization: its `events` field is an array reference. -/
structure SessionCacheRef where
  promptHash : String
  prompt : String
  eventsRef : Nat
  recordedAt : String
  totalDuration : Int
  isComplete : Bool
deriving DecidableEq

/-- Read an in-memory recording as a plain value (what `JSON.stringify`
would serialize at this instant). -/
def derefCache (h : Heap) (c : SessionCacheRef) : SessionCache :=
  { promptHash := c.promptHash
    prompt := c.prompt
    events := readCell h c.eventsRef
    recordedAt := c.recordedAt
    totalDuration := c.totalDuration
    isComplete := c.isComplete }

/-- `createRecorder` of the cache recorder module: allocates an empty
events array and captures the clock as both `startTime` and
`lastEventTime`. -/
def createRecorder (h : Heap) (prompt : String) (now : Int) : Heap × CacheRecorder :=
  let alloc := allocCell h []
  (alloc.1,
    { promptHash := hashPrompt (jsTrim (jsToLowerCase prompt))
      prompt := prompt
      eventsRef := alloc.2
      startTime := now
      lastEventTime := now
      isFinalized := false })

/-- `recordEvent` of the cache recorder module: a no-op (with only a console
diagnostic) on a finalized recorder, otherwise computes `delay`, pushes the
event onto the recorder's array, and advances `lastEventTime`. -/
def recordEvent (h : Heap) (recorder : CacheRecorder) (t : EventType) (d : EvData)
    (now : Int) : Heap × CacheRecorder :=
  if recorder.isFinalized then (h, recorder)
  else
    let delay : ℚ := ((now - recorder.lastEventTime : Int) : ℚ)
    let e : CacheEvent := { type := t, data := d, timestamp := now, delay := delay }
    (writeCell h recorder.eventsRef (readCell h recorder.eventsRef ++ [e]),
      { recorder with lastEventTime := now })

/-- `finalizeRecording` of the cache recorder module: flips the one-way
`isFinalized` gate, builds the recording (whose `events` field is the
recorder's own array reference, `events: recorder.events`), persists the
serialized value via `saveCache`, and returns the recording object. -/
def finalizeRecording (h : Heap) (env : Env) (recorder : CacheRecorder)
    (now : Int) (nowIso : String) : Heap × Env × CacheRecorder × SessionCacheRef :=
  let recorder' := { recorder with isFinalized := true }
  let cache : SessionCacheRef :=
    { promptHash := recorder.promptHash
      prompt := recorder.prompt
      eventsRef := recorder.eventsRef
      recordedAt := nowIso
      totalDuration := now - recorder.startTime
      isComplete := true }
  let env' := saveCache env (derefCache h cache)
  (h, env', recorder', cache)

/-! Concrete fixtures used by witnesses and counterexamples. -/

/-- A neutral clock instant. -/
def fxClock : Clock := { now := 7, iso := "2024-01-01T00:00:00.007Z" }

/-- A minimal event with no payload. -/
def fxEvent0 : CacheEvent :=
  { type := EventType.data_received, data := {}, timestamp := 0, delay := 0 }

/-- An event whose stored delay is 1200 ms. -/
def fxEvent1200 : CacheEvent :=
  { type := EventType.data_received, data := {}, timestamp := 1200, delay := 1200 }

/-- A complete, non-empty recording for the prompt `"q"`. -/
def fxCacheQ : SessionCache :=
  { promptHash := hashPrompt "q"
    prompt := "q"
    events := [fxEvent0]
    recordedAt := "2024-01-01T00:00:00.000Z"
    totalDuration := 5
    isComplete := true }

/-- A browser environment with the cache-enabled flag off whose storage
nevertheless holds the valid entry for `"q"`. -/
def fxEnvFlagOff : Env :=
  { windowDefined := true
    cacheEnabledFlag := false
    store := [(cacheKeyBase ++ hashPrompt "q", StoredStr.jsonCache fxCacheQ)] }

/-- The recording for `"q"` marked incomplete. -/
def fxCacheQIncomplete : SessionCache := { fxCacheQ with isComplete := false }

/-- A browser environment whose only entry is the incomplete recording. -/
def fxEnvIncomplete : Env :=
  { windowDefined := true
    cacheEnabledFlag := true
    store := [(cacheKeyBase ++ hashPrompt "q", StoredStr.jsonCache fxCacheQIncomplete)] }

/-- Two running tool calls, in insertion order. -/
def fxToolFirst : ToolCall :=
  { id := "tool-1", name := "sql_query", input := JsVal.obj [], status := "running" }

/-- The more recently added running tool call. -/
def fxToolSecond : ToolCall :=
  { id := "tool-2", name := "geocode", input := JsVal.obj [], status := "running" }

/-- An agent with two concurrently running tool calls. -/
def fxAgentTwoTools : Agent :=
  { id := some "a"
    type := "data-agent"
    description := none
    status := some "running"
    toolCalls := [fxToolFirst, fxToolSecond]
    startedAt := "2024-01-01T00:00:00.000Z" }

/-- A store state holding just that agent. -/
def fxStateTwoTools : StoreState := { initialState with agents := [fxAgentTwoTools] }

/-- A `tool_result` event naming that agent. -/
def fxEvToolResult : CacheEvent :=
  { type := EventType.tool_result
    data := { agent_id := some "a", row_count := some (JsVal.num 3) }
    timestamp := 0
    delay := 0 }

/-- A running agent with no tool calls. -/
def fxAgentPlain : Agent :=
  { id := some "a"
    type := "data-agent"
    description := none
    status := some "running"
    toolCalls := []
    startedAt := "2024-01-01T00:00:00.000Z" }

/-- A store state holding just the plain agent. -/
def fxStatePlain : StoreState := { initialState with agents := [fxAgentPlain] }

/-- An `agent_complete` event whose stored live status is `"failed"`. -/
def fxEvAgentFailed : CacheEvent :=
  { type := EventType.agent_complete
    data := { agent_id := some "a", status := some "failed" }
    timestamp := 0
    delay := 0 }

/-- A `tool_called` event naming the agent. -/
def fxEvToolCalled : CacheEvent :=
  { type := EventType.tool_called
    data := { agent_id := some "a", tool_name := some "sql_query" }
    timestamp := 0
    delay := 0 }

/-- A `tool_called` event with no `agent_id` in its payload. -/
def fxEvToolCalledNoAgent : CacheEvent :=
  { type := EventType.tool_called
    data := { tool_name := some "sql_query" }
    timestamp := 0
    delay := 0 }

/-- A recording for `"p1"` (hash key `"h1"` in the index fixtures). -/
def fxCacheP1 : SessionCache :=
  { promptHash := "h1"
    prompt := "p1"
    events := [fxEvent0]
    recordedAt := "2024-01-01T00:00:00.000Z"
    totalDuration := 5
    isComplete := true }

/-- A browser environment whose index lists a loadable entry (`"h1"`) and a
corrupt one (`"h2"`). -/
def fxEnvMixed : Env :=
  { windowDefined := true
    cacheEnabledFlag := true
    store :=
      [(cacheIndexKey, StoredStr.jsonIndex ["h1", "h2"]),
       (cacheKeyBase ++ "h1", StoredStr.jsonCache fxCacheP1),
       (cacheKeyBase ++ "h2", StoredStr.garbage)] }

/-- A heap with a single empty events array in cell 0. -/
def fxHeap0 : Heap := ⟨[[]]⟩

/-- A live, unfinalized recorder whose events array is cell 0. -/
def fxRecorder : CacheRecorder :=
  { promptHash := "h"
    prompt := "p"
    eventsRef := 0
    startTime := 0
    lastEventTime := 0
    isFinalized := false }

/-- The same recorder after its gate flipped. -/
def fxRecorderFinal : CacheRecorder := { fxRecorder with isFinalized := true }

/-- A non-browser environment (storage inert). -/
def fxEnvOff : Env := { windowDefined := false, cacheEnabledFlag := false, store := [] }

/-- A browser environment with empty storage. -/
def fxEnvEmpty : Env := { windowDefined := true, cacheEnabledFlag := true, store := [] }

/-- The result of a first finalize of `fxRecorder` at time 100. -/
def fxFinal1 : Heap × Env × CacheRecorder × SessionCacheRef :=
  finalizeRecording fxHeap0 fxEnvEmpty fxRecorder 100 "A"

/-- The result of finalizing the same recorder a second time, at time 200. -/
def fxFinal2 : Heap × Env × CacheRecorder × SessionCacheRef :=
  finalizeRecording fxFinal1.1 fxFinal1.2.1 fxFinal1.2.2.1 200 "B"

/-- A browser environment whose index lists only the loadable entry. -/
def fxEnvGood : Env :=
  { windowDefined := true
    cacheEnabledFlag := true
    store :=
      [(cacheIndexKey, StoredStr.jsonIndex ["h1"]),
       (cacheKeyBase ++ "h1", StoredStr.jsonCache fxCacheP1)] }

/-- The prompt an index entry contributes when it loads, or the empty
string when it is missing or fails to parse (used to state what a
per-entry-tolerant `listCachedPrompts` would return). -/
def loadedPrompt (store : LocalStorage) (hash : String) : String :=
  match loadPrompt store hash with
  | Except.ok p => p
  | Except.error _ => ""

/-- The id of the most recently added tool call still in the running state
(the selection the specification prescribes for `tool_result`). -/
def lastRunningToolId (a : Agent) : Option String :=
  ((a.toolCalls.filter fun tc => tc.status == "running").getLast?).map ToolCall.id

/-- Look up the status of one tool call of one agent in a store state. -/
def toolStatus (s : StoreState) (agentId toolId : String) : Option String :=
  match s.agents.find? (fun a => a.id == some agentId) with
  | none => none
  | some a =>
      match a.toolCalls.find? (fun tc => tc.id == toolId) with
      | none => none
      | some tc => some tc.status

/-- The `recordedAt` field of the recording stored under a key, if any
recording is stored there (an observation on the persisted store). -/
def storedRecordedAt (store : LocalStorage) (key : String) : Option String :=
  match getItem store key with
  | some (StoredStr.jsonCache c) => some c.recordedAt
  | _ => none

/-- The status of the named agent in a store state (an observation used to
tell two store states apart). -/
def agentStatus (s : StoreState) (agentId : String) : Option (Option String) :=
  (s.agents.find? fun a => a.id == some agentId).map Agent.status

/-! Claim theorems. -/

/-- C2: in a replayed recording, the event at index `i > 0` waits exactly
`clamp(round(delay * REPLAY_SPEED), MIN_DELAY, MAX_DELAY)` before being
applied, the event at index 0 is applied with no wait, and with the fixed
constants `REPLAY_SPEED = 0.15`, `MIN_DELAY = 50`, `MAX_DELAY = 800` a
stored delay of 1200 waits 180, of 10 waits 50, of 100000 waits 800. -/
theorem c2_replay_wait_schedule :
    (∀ (events : List CacheEvent) (i : Nat) (e : CacheEvent), 0 < i →
        events[i]? = some e →
        (replaySchedule events)[i]? = some (scaleDelay e.delay, e)) ∧
    (∀ (events : List CacheEvent) (e : CacheEvent), events[0]? = some e →
        (replaySchedule events)[0]? = some (0, e)) ∧
    scaleDelay 1200 = 180 ∧ scaleDelay 10 = 50 ∧ scaleDelay 100000 = 800 ∧
    REPLAY_SPEED = 0.15 ∧ MIN_DELAY = 50 ∧ MAX_DELAY = 800 := by
  refine ⟨?_, ?_, ?_, ?_, ?_, rfl, rfl, rfl⟩
  · intro events i e hi he
    match events, i with
    | [], i => simp at he
    | a :: rest, 0 => exact absurd hi (lt_irrefl 0)
    | a :: rest, j + 1 =>
      simp only [List.getElem?_cons_succ] at he
      simp only [replaySchedule, List.getElem?_cons_succ, List.getElem?_map, he,
        Option.map_some']
  · intro events e he
    match events with
    | [] => simp at he
    | a :: rest =>
      simp only [List.getElem?_cons_zero, Option.some.injEq] at he
      simp [replaySchedule, he]
  · norm_num [scaleDelay, jsRound, REPLAY_SPEED, MIN_DELAY, MAX_DELAY]
  · norm_num [scaleDelay, jsRound, REPLAY_SPEED, MIN_DELAY, MAX_DELAY]
  · norm_num [scaleDelay, jsRound, REPLAY_SPEED, MIN_DELAY, MAX_DELAY]

/-- Witness for C2 at a concrete recording: the second event, with stored
delay 1200, is scheduled after a wait of `scaleDelay 1200` (= 180 ms). -/
theorem c2_replay_wait_schedule_witness :
    (replaySchedule [fxEvent0, fxEvent1200])[1]? =
      some (scaleDelay fxEvent1200.delay, fxEvent1200) :=
  c2_replay_wait_schedule.1 [fxEvent0, fxEvent1200] 1 fxEvent1200 Nat.one_pos rfl

/-- C9: appending to a finalized recorder is inert: the heap (hence the
events array and its length) and every recorder field are unchanged, and
the function returns normally (only a console diagnostic is emitted). -/
theorem c9_finalized_append_inert :
    ∀ (h : Heap) (recorder : CacheRecorder) (t : EventType) (d : EvData) (now : Int),
      recorder.isFinalized = true → recordEvent h recorder t d now = (h, recorder) := by
  intro h recorder t d now hfin
  simp [recordEvent, hfin]

/-- Witness for C9: a concrete finalized recorder is untouched by an
append attempt. -/
theorem c9_finalized_append_inert_witness :
    fxRecorderFinal.isFinalized = true ∧
      recordEvent fxHeap0 fxRecorderFinal EventType.data_received {} 9 =
        (fxHeap0, fxRecorderFinal) :=
  ⟨rfl, c9_finalized_append_inert fxHeap0 fxRecorderFinal EventType.data_received {} 9 rfl⟩

/-- C10: during replay, a `tool_called` or `tool_result` event with a falsy
`agent_id` leaves the store untouched, and a `tool_result` event naming an
agent that is not in the store, or one with no running tool call, also
leaves the store untouched — no error, no created entry. -/
theorem c10_tool_event_frame :
    (∀ (clock : Clock) (e : CacheEvent) (s : StoreState),
        (e.type = EventType.tool_called ∨ e.type = EventType.tool_result) →
        strTruthy e.data.agent_id = false →
        processEvent clock e s = s) ∧
    (∀ (clock : Clock) (e : CacheEvent) (s : StoreState) (aid : String),
        e.type = EventType.tool_result → e.data.agent_id = some aid → aid ≠ "" →
        s.agents.find? (fun a => a.id == some aid) = none →
        processEvent clock e s = s) ∧
    (∀ (clock : Clock) (e : CacheEvent) (s : StoreState) (aid : String) (agent : Agent),
        e.type = EventType.tool_result → e.data.agent_id = some aid → aid ≠ "" →
        s.agents.find? (fun a => a.id == some aid) = some agent →
        agent.toolCalls.find? (fun tc => tc.status == "running") = none →
        processEvent clock e s = s) := by
  refine ⟨?_, ?_, ?_⟩
  · intro clock e s htype hfalsy
    rcases e with ⟨t, d, ts, dl⟩
    rcases htype with h | h <;> subst h <;>
      · simp only [processEvent, ifTruthy]
        rcases hd : d.agent_id with _ | v
        · rfl
        · rw [hd] at hfalsy
          have hv : v = "" := by simpa [strTruthy] using hfalsy
          subst hv
          simp
  · intro clock e s aid htype haid hne hfind
    rcases e with ⟨t, d, ts, dl⟩
    subst htype
    simp only at haid hfind
    simp [processEvent, ifTruthy, haid, hne, hfind]
  · intro clock e s aid agent htype haid hne hfind hrun
    rcases e with ⟨t, d, ts, dl⟩
    subst htype
    simp only at haid hfind
    simp [processEvent, ifTruthy, haid, hne, hfind, hrun]

/-- Witness for C10: a concrete `tool_called` event without `agent_id`
leaves a concrete store state unchanged. -/
theorem c10_tool_event_frame_witness :
    processEvent fxClock fxEvToolCalledNoAgent fxStateTwoTools = fxStateTwoTools :=
  c10_tool_event_frame.1 fxClock fxEvToolCalledNoAgent fxStateTwoTools (Or.inl rfl) rfl

/-- C6: `getCache` returns absent when there is no stored entry, when the
entry fails to parse, or when it parses but `isComplete` is false or
`events` is empty; and a throw inside the read (the parse) is caught, so
the caller always receives a plain `Option` — never an exception. -/
theorem c6_cache_validity_gate :
    ∀ (env : Env) (prompt : String),
      (getItem env.store (cacheKeyBase ++ hashPrompt (jsTrim (jsToLowerCase prompt))) =
          none → getCache env prompt = none) ∧
      (∀ sv,
        getItem env.store (cacheKeyBase ++ hashPrompt (jsTrim (jsToLowerCase prompt))) =
          some sv → parseCache sv = Except.error () → getCache env prompt = none) ∧
      (∀ c,
        getItem env.store (cacheKeyBase ++ hashPrompt (jsTrim (jsToLowerCase prompt))) =
          some (StoredStr.jsonCache c) → c.isComplete = false →
        getCache env prompt = none) ∧
      (∀ c,
        getItem env.store (cacheKeyBase ++ hashPrompt (jsTrim (jsToLowerCase prompt))) =
          some (StoredStr.jsonCache c) → c.events = [] →
        getCache env prompt = none) ∧
      (∀ err,
        getCacheTry env.store (cacheKeyBase ++ hashPrompt (jsTrim (jsToLowerCase prompt))) =
          Except.error err → getCache env prompt = none) := by
  intro env prompt
  rcases hw : env.windowDefined with _ | _
  · exact ⟨fun _ => by simp [getCache, hw],
      fun _ _ _ => by simp [getCache, hw],
      fun _ _ _ => by simp [getCache, hw],
      fun _ _ _ => by simp [getCache, hw],
      fun _ _ => by simp [getCache, hw]⟩
  · refine ⟨?_, ?_, ?_, ?_, ?_⟩
    · intro hnone
      simp [getCache, getCacheTry, hw, hnone]
    · intro sv hsv hparse
      simp [getCache, getCacheTry, hw, hsv, hparse]
    · intro c hc hcomplete
      simp [getCache, getCacheTry, hw, hc, parseCache, hcomplete]
    · intro c hc hevents
      simp [getCache, getCacheTry, hw, hc, parseCache, hevents]
    · intro err herr
      simp [getCache, hw, herr]

/-- Witness for C6: the concrete incomplete entry for `"q"` is gated out. -/
theorem c6_cache_validity_gate_witness :
    getCache fxEnvIncomplete "q" = none :=
  (c6_cache_validity_gate fxEnvIncomplete "q").2.2.1 fxCacheQIncomplete rfl rfl

/-- Counterexample to C5 as stated: in a browser environment whose
cache-enabled flag is false, `isCacheEnabled` is false and yet `getCache`
returns the stored recording for `"q"` instead of absent — `getCache` and
`saveCache` never consult the flag. -/
theorem c5_counterexample :
    isCacheEnabled fxEnvFlagOff = false ∧ getCache fxEnvFlagOff "q" = some fxCacheQ :=
  ⟨rfl, rfl⟩

/-- C5 amended: the flag is consulted only by the storage module's callers;
`getCache` and `saveCache` themselves are disabled only by the absence of
`window` (server rendering), in which case the flag is also reported false,
every get returns absent, and every save is a no-op (storage, including the
secondary index, unchanged). -/
theorem c5_disabled_only_off_browser :
    ∀ (env : Env), env.windowDefined = false →
      isCacheEnabled env = false ∧
      (∀ prompt, getCache env prompt = none) ∧
      (∀ c, saveCache env c = env) := by
  intro env hw
  refine ⟨?_, ?_, ?_⟩ <;> simp [isCacheEnabled, getCache, saveCache, hw]

/-- Witness for the amended C5 at a concrete non-browser environment. -/
theorem c5_disabled_only_off_browser_witness :
    isCacheEnabled fxEnvOff = false ∧ getCache fxEnvOff "q" = none ∧
      saveCache fxEnvOff fxCacheQ = fxEnvOff :=
  ⟨(c5_disabled_only_off_browser fxEnvOff rfl).1,
    (c5_disabled_only_off_browser fxEnvOff rfl).2.1 "q",
    (c5_disabled_only_off_browser fxEnvOff rfl).2.2 fxCacheQ⟩

/-- When every index entry loads without throwing, the mapper returns all
the loaded prompts in index order. -/
theorem mapPrompts_all_ok (store : LocalStorage) :
    ∀ (l : List String), (∀ h ∈ l, loadPrompt store h ≠ Except.error ()) →
      mapPrompts store l = Except.ok (l.map (loadedPrompt store)) := by
  intro l
  induction l with
  | nil => intro _; rfl
  | cons hd tl ih =>
    intro hok
    have hhd := hok hd (List.mem_cons_self hd tl)
    cases hload : loadPrompt store hd with
    | error e => cases e; exact absurd hload hhd
    | ok p =>
      have htl := ih fun x hx => hok x (List.mem_cons_of_mem hd hx)
      simp [mapPrompts, hload, htl, loadedPrompt, List.map_cons]

/-- When some index entry throws on parse, the whole mapper throws. -/
theorem mapPrompts_has_error (store : LocalStorage) :
    ∀ (l : List String), (∃ h ∈ l, loadPrompt store h = Except.error ()) →
      mapPrompts store l = Except.error () := by
  intro l
  induction l with
  | nil => rintro ⟨x, hmem, _⟩; simp at hmem
  | cons hd tl ih =>
    rintro ⟨x, hmem, herr⟩
    cases hload : loadPrompt store hd with
    | error e => cases e; simp [mapPrompts, hload]
    | ok p =>
      have htl : ∃ y ∈ tl, loadPrompt store y = Except.error () := by
        rcases List.mem_cons.mp hmem with rfl | hx
        · rw [hload] at herr; cases herr
        · exact ⟨x, hx, herr⟩
      simp [mapPrompts, hload, ih htl]

/-- Counterexample to C8 as stated: in `fxEnvMixed` the entry under `"h1"`
is present and loads with prompt `"p1"`, but because the entry under
`"h2"` fails to parse, `listCachedPrompts` returns the empty list instead
of skipping only the failing entry and returning `["p1"]`. -/
theorem c8_counterexample :
    getItem fxEnvMixed.store (cacheKeyBase ++ "h1") =
        some (StoredStr.jsonCache fxCacheP1) ∧
      fxCacheP1.prompt = "p1" ∧
      listCachedPrompts fxEnvMixed = [] :=
  ⟨rfl, rfl, rfl⟩

/-- C8 amended: `listPrompts` maps the secondary index to each entry's
prompt, skipping missing entries (they contribute an empty string that the
final truthiness filter drops) and returning only non-empty prompts; but
the parse of each present entry is not individually guarded — if any
present entry fails to parse, the single surrounding catch discards
everything and the whole call returns the empty list. -/
theorem c8_list_prompts :
    ∀ (env : Env) (index : List String),
      env.windowDefined = true →
      parseIndex (getItem env.store cacheIndexKey) = Except.ok index →
      ((∀ h ∈ index, loadPrompt env.store h ≠ Except.error ()) →
        listCachedPrompts env =
          (index.map (loadedPrompt env.store)).filter fun p => p != "") ∧
      ((∃ h ∈ index, loadPrompt env.store h = Except.error ()) →
        listCachedPrompts env = []) := by
  intro env index hw hidx
  constructor
  · intro hok
    simp [listCachedPrompts, hw, hidx, mapPrompts_all_ok env.store index hok]
  · intro herr
    simp [listCachedPrompts, hw, hidx, mapPrompts_has_error env.store index herr]

/-- Witness for the amended C8: with every entry loadable, the prompts of
the index are listed. -/
theorem c8_list_prompts_witness : listCachedPrompts fxEnvGood = ["p1"] := by
  have h := (c8_list_prompts fxEnvGood ["h1"] rfl rfl).1 ?_
  · exact h.trans rfl
  · intro x hx
    simp only [List.mem_singleton] at hx
    subst hx
    rw [show loadPrompt fxEnvGood.store "h1" = Except.ok "p1" from rfl]
    simp

/-- Counterexample to C7 as stated: the agent `"a"` has two running tool
calls, added in the order `tool-1`, `tool-2`; the most recently added
running tool call is `tool-2`, yet after the `tool_result` event it is
still running while the earliest-added `tool-1` is the one marked
complete — selection is first-running-found, not most-recently-added. -/
theorem c7_counterexample :
    lastRunningToolId fxAgentTwoTools = some "tool-2" ∧
      toolStatus (processEvent fxClock fxEvToolResult fxStateTwoTools) "a" "tool-2" =
        some "running" ∧
      toolStatus (processEvent fxClock fxEvToolResult fxStateTwoTools) "a" "tool-1" =
        some "complete" :=
  ⟨rfl, rfl, rfl⟩

/-- C7 amended: on a `tool_result` event for an agent with at least one
running tool call, the tool call marked complete is the *earliest-added*
tool call still in the running state (the first one in scan order of the
agent's list), not selected by id match and not the most recently added. -/
theorem c7_first_running_selected :
    ∀ (clock : Clock) (e : CacheEvent) (s : StoreState) (aid : String)
      (agent : Agent) (rt : ToolCall),
      e.type = EventType.tool_result →
      e.data.agent_id = some aid → aid ≠ "" →
      s.agents.find? (fun a => a.id == some aid) = some agent →
      agent.toolCalls.find? (fun tc => tc.status == "running") = some rt →
      (rt.status = "running" ∧
        ∃ pre post, agent.toolCalls = pre ++ rt :: post ∧
          ∀ tc ∈ pre, ¬ tc.status = "running") ∧
      processEvent clock e s = completeToolCall s aid rt.id e.data.row_count none := by
  intro clock e s aid agent rt htype haid hne hfind hrun
  constructor
  · rcases List.find?_eq_some.mp hrun with ⟨hp, pre, post, heq, hpre⟩
    refine ⟨by simpa using hp, pre, post, heq, ?_⟩
    intro tc htc
    simpa using hpre tc htc
  · rcases e with ⟨t, d, ts, dl⟩
    subst htype
    simp only at haid ⊢
    simp [processEvent, ifTruthy, haid, hne, hfind, hrun]

/-- Witness for the amended C7 at the concrete two-running-tools state:
the event completes `tool-1`, the earliest running tool call. -/
theorem c7_first_running_selected_witness :
    processEvent fxClock fxEvToolResult fxStateTwoTools =
      completeToolCall fxStateTwoTools "a" "tool-1" (some (JsVal.num 3)) none :=
  (c7_first_running_selected fxClock fxEvToolResult fxStateTwoTools "a"
    fxAgentTwoTools fxToolFirst rfl rfl (by decide) rfl rfl).2

/-- Reading back the key just written returns the written value. -/
theorem getItem_setItem_self (st : LocalStorage) (k : String) (v : StoredStr) :
    getItem (setItem st k v) k = some v := by
  induction st with
  | nil => simp [setItem, getItem]
  | cons p rest ih =>
    obtain ⟨k2, w⟩ := p
    by_cases hk : k2 = k
    · subst hk; simp [setItem, getItem]
    · simp [setItem, getItem, hk, ih]

/-- Writing one key does not disturb any other key. -/
theorem getItem_setItem_other (st : LocalStorage) (k : String) (v : StoredStr)
    (k2 : String) (hne : k2 ≠ k) : getItem (setItem st k v) k2 = getItem st k2 := by
  induction st with
  | nil => simp [setItem, getItem, Ne.symm hne]
  | cons p rest ih =>
    obtain ⟨k3, w⟩ := p
    by_cases hk : k3 = k
    · subst hk; simp [setItem, getItem, Ne.symm hne]
    · simp [setItem, getItem, hk, ih]

/-- Rewriting a key with the value it already holds leaves storage
unchanged. -/
theorem setItem_self (st : LocalStorage) (k : String) (v : StoredStr)
    (h : getItem st k = some v) : setItem st k v = st := by
  induction st with
  | nil => simp [getItem] at h
  | cons p rest ih =>
    obtain ⟨k2, w⟩ := p
    by_cases hk : k2 = k
    · subst hk
      simp [getItem] at h
      simp [setItem, h]
    · simp only [getItem, if_neg hk] at h
      simp [setItem, hk, ih h]

/-- The entry key of a recording collides with the secondary-index key
exactly when its hash is the string `"index"`. -/
theorem entryKey_eq_indexKey_iff (p : String) :
    cacheKeyBase ++ p = cacheIndexKey ↔ p = "index" := by
  constructor
  · intro h
    have hd := congrArg String.data h
    rw [String.data_append] at hd
    have hd2 : cacheKeyBase.data ++ p.data = cacheKeyBase.data ++ "index".data :=
      hd.trans rfl
    exact congrArg String.mk (List.append_cancel_left hd2)
  · intro h
    subst h
    rfl

/-- Counterexample to C3 as stated: the recording returned by a concrete
finalize shares its events array reference with the recorder, so a direct
mutation of the recorder's (empty) events array afterwards is visible
through the returned recording — it is not an independent by-value copy. -/
theorem c3_counterexample :
    (finalizeRecording fxHeap0 fxEnvOff fxRecorder 5 "T").2.2.2.eventsRef =
        fxRecorder.eventsRef ∧
      (derefCache fxHeap0
        (finalizeRecording fxHeap0 fxEnvOff fxRecorder 5 "T").2.2.2).events = [] ∧
      (derefCache (writeCell fxHeap0 fxRecorder.eventsRef [fxEvent0])
        (finalizeRecording fxHeap0 fxEnvOff fxRecorder 5 "T").2.2.2).events =
        [fxEvent0] :=
  ⟨rfl, rfl, rfl⟩

/-- C3 amended: finalize flips `isFinalized`, builds a recording with
`isComplete = true`, `recordedAt` the ISO clock and
`totalDuration = now − startTime`, persists its serialized value via the
store's save and returns it — but the returned recording's events field is
the recorder's own array reference (aliased), not an independent copy; only
the persisted serialization is a point-in-time snapshot, and later recorder
mutation through `recordEvent` is prevented only by the finalized gate. -/
theorem c3_finalize_builds_and_aliases :
    ∀ (h : Heap) (env : Env) (recorder : CacheRecorder) (now : Int) (nowIso : String),
      (finalizeRecording h env recorder now nowIso).1 = h ∧
      (finalizeRecording h env recorder now nowIso).2.2.1.isFinalized = true ∧
      (finalizeRecording h env recorder now nowIso).2.2.2.isComplete = true ∧
      (finalizeRecording h env recorder now nowIso).2.2.2.recordedAt = nowIso ∧
      (finalizeRecording h env recorder now nowIso).2.2.2.totalDuration =
        now - recorder.startTime ∧
      (finalizeRecording h env recorder now nowIso).2.2.2.promptHash =
        recorder.promptHash ∧
      (finalizeRecording h env recorder now nowIso).2.2.2.prompt = recorder.prompt ∧
      (finalizeRecording h env recorder now nowIso).2.1 =
        saveCache env (derefCache h (finalizeRecording h env recorder now nowIso).2.2.2) ∧
      (finalizeRecording h env recorder now nowIso).2.2.2.eventsRef =
        recorder.eventsRef :=
  fun _ _ _ _ _ => ⟨rfl, rfl, rfl, rfl, rfl, rfl, rfl, rfl, rfl⟩

/-- Saving a second recording with the same hash leaves the parsed
secondary index exactly as the first save left it: the hash is already
present (or the index is already unreadable), so nothing is appended. -/
theorem saveCacheStore_index_stable (st : LocalStorage) (c1 c2 : SessionCache)
    (hhash : c2.promptHash = c1.promptHash) :
    parseIndex (getItem (saveCacheStore (saveCacheStore st c1) c2) cacheIndexKey) =
      parseIndex (getItem (saveCacheStore st c1) cacheIndexKey) := by
  have hkey : cacheKeyBase ++ c2.promptHash = cacheKeyBase ++ c1.promptHash := by
    rw [hhash]
  by_cases hcol : cacheKeyBase ++ c1.promptHash = cacheIndexKey
  · -- the entry key collides with the index key: each save overwrites the
    -- index key with a recording, and the index parse fails both times
    have hget1 : getItem (setItem st (cacheKeyBase ++ c1.promptHash)
        (StoredStr.jsonCache c1)) cacheIndexKey = some (StoredStr.jsonCache c1) := by
      rw [hcol]; exact getItem_setItem_self ..
    have h1 : saveCacheStore st c1 =
        setItem st (cacheKeyBase ++ c1.promptHash) (StoredStr.jsonCache c1) := by
      simp [saveCacheStore, hget1, parseIndex]
    rw [h1]
    have hcol2 : cacheKeyBase ++ c2.promptHash = cacheIndexKey := hkey.trans hcol
    have hget2 : getItem (setItem (setItem st (cacheKeyBase ++ c1.promptHash)
        (StoredStr.jsonCache c1)) (cacheKeyBase ++ c2.promptHash)
        (StoredStr.jsonCache c2)) cacheIndexKey = some (StoredStr.jsonCache c2) := by
      rw [hcol2]; exact getItem_setItem_self ..
    have h2 : saveCacheStore (setItem st (cacheKeyBase ++ c1.promptHash)
        (StoredStr.jsonCache c1)) c2 =
        setItem (setItem st (cacheKeyBase ++ c1.promptHash) (StoredStr.jsonCache c1))
          (cacheKeyBase ++ c2.promptHash) (StoredStr.jsonCache c2) := by
      simp [saveCacheStore, hget2, parseIndex]
    rw [h2, hget2, hget1]
    rfl
  · have hne : cacheIndexKey ≠ cacheKeyBase ++ c1.promptHash := fun hx => hcol hx.symm
    have hne2 : cacheIndexKey ≠ cacheKeyBase ++ c2.promptHash := by
      rw [hkey]; exact hne
    have hpass1 : getItem (setItem st (cacheKeyBase ++ c1.promptHash)
        (StoredStr.jsonCache c1)) cacheIndexKey = getItem st cacheIndexKey :=
      getItem_setItem_other _ _ _ _ hne
    cases hparse : parseIndex (getItem st cacheIndexKey) with
    | error e =>
      cases e
      have h1 : saveCacheStore st c1 =
          setItem st (cacheKeyBase ++ c1.promptHash) (StoredStr.jsonCache c1) := by
        simp [saveCacheStore, hpass1, hparse]
      rw [h1]
      have hpass2 : getItem (setItem (setItem st (cacheKeyBase ++ c1.promptHash)
          (StoredStr.jsonCache c1)) (cacheKeyBase ++ c2.promptHash)
          (StoredStr.jsonCache c2)) cacheIndexKey = getItem st cacheIndexKey := by
        rw [getItem_setItem_other _ _ _ _ hne2, hpass1]
      have h2 : saveCacheStore (setItem st (cacheKeyBase ++ c1.promptHash)
          (StoredStr.jsonCache c1)) c2 =
          setItem (setItem st (cacheKeyBase ++ c1.promptHash) (StoredStr.jsonCache c1))
            (cacheKeyBase ++ c2.promptHash) (StoredStr.jsonCache c2) := by
        simp [saveCacheStore, hpass2, hparse]
      rw [h2, hpass2, hpass1]
    | ok idx0 =>
      by_cases hmem : c1.promptHash ∈ idx0
      · have h1 : saveCacheStore st c1 =
            setItem st (cacheKeyBase ++ c1.promptHash) (StoredStr.jsonCache c1) := by
          simp [saveCacheStore, hpass1, hparse, hmem]
        rw [h1]
        have hpass2 : getItem (setItem (setItem st (cacheKeyBase ++ c1.promptHash)
            (StoredStr.jsonCache c1)) (cacheKeyBase ++ c2.promptHash)
            (StoredStr.jsonCache c2)) cacheIndexKey = getItem st cacheIndexKey := by
          rw [getItem_setItem_other _ _ _ _ hne2, hpass1]
        have hmem2 : c2.promptHash ∈ idx0 := by rw [hhash]; exact hmem
        have h2 : saveCacheStore (setItem st (cacheKeyBase ++ c1.promptHash)
            (StoredStr.jsonCache c1)) c2 =
            setItem (setItem st (cacheKeyBase ++ c1.promptHash)
              (StoredStr.jsonCache c1)) (cacheKeyBase ++ c2.promptHash)
              (StoredStr.jsonCache c2) := by
          simp [saveCacheStore, hpass2, hparse, hmem2]
        rw [h2, hpass2, hpass1]
      · have h1 : saveCacheStore st c1 =
            setItem (setItem st (cacheKeyBase ++ c1.promptHash)
              (StoredStr.jsonCache c1)) cacheIndexKey
              (StoredStr.jsonIndex (idx0 ++ [c1.promptHash])) := by
          simp [saveCacheStore, hpass1, hparse, hmem]
        rw [h1]
        have hidx1 : getItem (setItem (setItem st (cacheKeyBase ++ c1.promptHash)
            (StoredStr.jsonCache c1)) cacheIndexKey
            (StoredStr.jsonIndex (idx0 ++ [c1.promptHash]))) cacheIndexKey =
            some (StoredStr.jsonIndex (idx0 ++ [c1.promptHash])) :=
          getItem_setItem_self ..
        have hpass2 : getItem (setItem (setItem (setItem st
            (cacheKeyBase ++ c1.promptHash) (StoredStr.jsonCache c1)) cacheIndexKey
            (StoredStr.jsonIndex (idx0 ++ [c1.promptHash])))
            (cacheKeyBase ++ c2.promptHash) (StoredStr.jsonCache c2)) cacheIndexKey =
            some (StoredStr.jsonIndex (idx0 ++ [c1.promptHash])) := by
          rw [getItem_setItem_other _ _ _ _ hne2, hidx1]
        have hcont : c2.promptHash ∈ idx0 ++ [c1.promptHash] := by
          rw [hhash]; simp
        have h2 : saveCacheStore (setItem (setItem st
            (cacheKeyBase ++ c1.promptHash) (StoredStr.jsonCache c1)) cacheIndexKey
            (StoredStr.jsonIndex (idx0 ++ [c1.promptHash]))) c2 =
            setItem (setItem (setItem st (cacheKeyBase ++ c1.promptHash)
              (StoredStr.jsonCache c1)) cacheIndexKey
              (StoredStr.jsonIndex (idx0 ++ [c1.promptHash])))
              (cacheKeyBase ++ c2.promptHash) (StoredStr.jsonCache c2) := by
          simp [saveCacheStore, hpass2, parseIndex, hcont]
        rw [h2, hpass2, hidx1]

/-- Saving the identical recording again is a complete no-op on storage. -/
theorem saveCacheStore_idem (st : LocalStorage) (c : SessionCache) :
    saveCacheStore (saveCacheStore st c) c = saveCacheStore st c := by
  by_cases hcol : cacheKeyBase ++ c.promptHash = cacheIndexKey
  · have hget1 : getItem (setItem st (cacheKeyBase ++ c.promptHash)
        (StoredStr.jsonCache c)) cacheIndexKey = some (StoredStr.jsonCache c) := by
      rw [hcol]; exact getItem_setItem_self ..
    have h1 : saveCacheStore st c =
        setItem st (cacheKeyBase ++ c.promptHash) (StoredStr.jsonCache c) := by
      simp [saveCacheStore, hget1, parseIndex]
    rw [h1]
    have hkeyS : getItem (setItem st (cacheKeyBase ++ c.promptHash)
        (StoredStr.jsonCache c)) (cacheKeyBase ++ c.promptHash) =
        some (StoredStr.jsonCache c) := getItem_setItem_self ..
    have hset : setItem (setItem st (cacheKeyBase ++ c.promptHash)
        (StoredStr.jsonCache c)) (cacheKeyBase ++ c.promptHash)
        (StoredStr.jsonCache c) =
        setItem st (cacheKeyBase ++ c.promptHash) (StoredStr.jsonCache c) :=
      setItem_self _ _ _ hkeyS
    simp [saveCacheStore, hset, hget1, parseIndex]
  · have hne : cacheIndexKey ≠ cacheKeyBase ++ c.promptHash := fun hx => hcol hx.symm
    have hpass1 : getItem (setItem st (cacheKeyBase ++ c.promptHash)
        (StoredStr.jsonCache c)) cacheIndexKey = getItem st cacheIndexKey :=
      getItem_setItem_other _ _ _ _ hne
    cases hparse : parseIndex (getItem st cacheIndexKey) with
    | error e =>
      cases e
      have h1 : saveCacheStore st c =
          setItem st (cacheKeyBase ++ c.promptHash) (StoredStr.jsonCache c) := by
        simp [saveCacheStore, hpass1, hparse]
      rw [h1]
      have hset : setItem (setItem st (cacheKeyBase ++ c.promptHash)
          (StoredStr.jsonCache c)) (cacheKeyBase ++ c.promptHash)
          (StoredStr.jsonCache c) =
          setItem st (cacheKeyBase ++ c.promptHash) (StoredStr.jsonCache c) :=
        setItem_self _ _ _ (getItem_setItem_self ..)
      simp [saveCacheStore, hset, hpass1, hparse]
    | ok idx0 =>
      by_cases hmem : c.promptHash ∈ idx0
      · have h1 : saveCacheStore st c =
            setItem st (cacheKeyBase ++ c.promptHash) (StoredStr.jsonCache c) := by
          simp [saveCacheStore, hpass1, hparse, hmem]
        rw [h1]
        have hset : setItem (setItem st (cacheKeyBase ++ c.promptHash)
            (StoredStr.jsonCache c)) (cacheKeyBase ++ c.promptHash)
            (StoredStr.jsonCache c) =
            setItem st (cacheKeyBase ++ c.promptHash) (StoredStr.jsonCache c) :=
          setItem_self _ _ _ (getItem_setItem_self ..)
        simp [saveCacheStore, hset, hpass1, hparse, hmem]
      · have h1 : saveCacheStore st c =
            setItem (setItem st (cacheKeyBase ++ c.promptHash)
              (StoredStr.jsonCache c)) cacheIndexKey
              (StoredStr.jsonIndex (idx0 ++ [c.promptHash])) := by
          simp [saveCacheStore, hpass1, hparse, hmem]
        rw [h1]
        have hkeyS : getItem (setItem (setItem st (cacheKeyBase ++ c.promptHash)
            (StoredStr.jsonCache c)) cacheIndexKey
            (StoredStr.jsonIndex (idx0 ++ [c.promptHash])))
            (cacheKeyBase ++ c.promptHash) = some (StoredStr.jsonCache c) := by
          rw [getItem_setItem_other _ _ _ _ (fun hx => hcol hx)]
          exact getItem_setItem_self ..
        have hset : setItem (setItem (setItem st (cacheKeyBase ++ c.promptHash)
            (StoredStr.jsonCache c)) cacheIndexKey
            (StoredStr.jsonIndex (idx0 ++ [c.promptHash])))
            (cacheKeyBase ++ c.promptHash) (StoredStr.jsonCache c) =
            setItem (setItem st (cacheKeyBase ++ c.promptHash)
              (StoredStr.jsonCache c)) cacheIndexKey
              (StoredStr.jsonIndex (idx0 ++ [c.promptHash])) :=
          setItem_self _ _ _ hkeyS
        have hidxS : getItem (setItem (setItem st (cacheKeyBase ++ c.promptHash)
            (StoredStr.jsonCache c)) cacheIndexKey
            (StoredStr.jsonIndex (idx0 ++ [c.promptHash]))) cacheIndexKey =
            some (StoredStr.jsonIndex (idx0 ++ [c.promptHash])) :=
          getItem_setItem_self ..
        have hcont : c.promptHash ∈ idx0 ++ [c.promptHash] := by simp
        simp [saveCacheStore, hset, hidxS, parseIndex, hcont]

/-- The environment-level reading of the index stability above. -/
theorem saveCache_index_stable (env : Env) (c1 c2 : SessionCache)
    (hhash : c2.promptHash = c1.promptHash) :
    parseIndex (getItem (saveCache (saveCache env c1) c2).store cacheIndexKey) =
      parseIndex (getItem (saveCache env c1).store cacheIndexKey) := by
  rcases hw : env.windowDefined with _ | _
  · simp [saveCache, hw]
  · simp only [saveCache, hw, Bool.not_true, Bool.false_eq_true, if_false]
    exact saveCacheStore_index_stable env.store c1 c2 hhash

/-- The environment-level reading of the save idempotence above. -/
theorem saveCache_idem (env : Env) (c : SessionCache) :
    saveCache (saveCache env c) c = saveCache env c := by
  rcases hw : env.windowDefined with _ | _
  · simp [saveCache, hw]
  · simp [saveCache, hw, saveCacheStore_idem]

/-- Counterexample to C4 as stated: finalizing the same recorder a second
time, 100 ms later, returns a different snapshot (`recordedAt` changes from
`"A"` to `"B"`) and overwrites the persisted entry with the new timestamps,
so the second call is neither free of effects beyond the first call nor a
return of the same snapshot.  (The secondary index is indeed not extended —
that part survives in the amended claim.) -/
theorem c4_counterexample :
    fxFinal2.2.2.2 ≠ fxFinal1.2.2.2 ∧
      storedRecordedAt fxFinal1.2.1.store (cacheKeyBase ++ "h") = some "A" ∧
      storedRecordedAt fxFinal2.2.1.store (cacheKeyBase ++ "h") = some "B" :=
  ⟨by decide, rfl, rfl⟩

/-- C4 amended: a second finalize never appends to the parsed secondary
index and never throws; it leaves the heap and the recorder exactly as the
first call did, but rebuilds the recording with the second call's clock,
overwrites the same entry key with it and returns it; when the second call
runs at the same clock instant as the first, its entire result (heap,
environment, recorder and returned snapshot) coincides with the first
call's. -/
theorem c4_second_finalize :
    ∀ (h : Heap) (env : Env) (recorder : CacheRecorder) (n1 : Int) (i1 : String)
      (n2 : Int) (i2 : String),
      parseIndex (getItem (finalizeRecording
          (finalizeRecording h env recorder n1 i1).1
          (finalizeRecording h env recorder n1 i1).2.1
          (finalizeRecording h env recorder n1 i1).2.2.1 n2 i2).2.1.store
          cacheIndexKey) =
        parseIndex (getItem (finalizeRecording h env recorder n1 i1).2.1.store
          cacheIndexKey) ∧
      (finalizeRecording (finalizeRecording h env recorder n1 i1).1
        (finalizeRecording h env recorder n1 i1).2.1
        (finalizeRecording h env recorder n1 i1).2.2.1 n2 i2).1 =
        (finalizeRecording h env recorder n1 i1).1 ∧
      (finalizeRecording (finalizeRecording h env recorder n1 i1).1
        (finalizeRecording h env recorder n1 i1).2.1
        (finalizeRecording h env recorder n1 i1).2.2.1 n2 i2).2.2.1 =
        (finalizeRecording h env recorder n1 i1).2.2.1 ∧
      (n2 = n1 → i2 = i1 →
        finalizeRecording (finalizeRecording h env recorder n1 i1).1
          (finalizeRecording h env recorder n1 i1).2.1
          (finalizeRecording h env recorder n1 i1).2.2.1 n2 i2 =
          finalizeRecording h env recorder n1 i1) := by
  intro h env recorder n1 i1 n2 i2
  refine ⟨?_, rfl, rfl, ?_⟩
  · exact saveCache_index_stable env _ _ rfl
  · intro hn hi
    subst hn
    subst hi
    simp only [finalizeRecording]
    rw [saveCache_idem]

/-- Witness for the amended C4: a same-instant double finalize of the
concrete recorder returns exactly the first call's result. -/
theorem c4_second_finalize_witness :
    finalizeRecording fxFinal1.1 fxFinal1.2.1 fxFinal1.2.2.1 100 "A" = fxFinal1 :=
  (c4_second_finalize fxHeap0 fxEnvEmpty fxRecorder 100 "A" 100 "A").2.2.2 rfl rfl


/-- The `replayCache` loop hands each event to `processEvent` exactly once,
in stored order: it is the left fold of `processEvent` over the events. -/
theorem replayLoop_eq_foldl (clock : Clock) :
    ∀ (events : List CacheEvent) (s : StoreState),
      replayLoop clock events s =
        events.foldl (fun st e => processEvent clock e st) s := by
  intro events
  induction events with
  | nil => intro s; rfl
  | cons e rest ih => intro s; simp [replayLoop, List.foldl_cons, ih]

/-- Counterexample to C1 as stated: for the stored `agent_complete` event
whose payload carries status `"failed"`, the replay handler's effect on the
store differs from the live handler's effect at the same instant — replay
writes status `"complete"` unconditionally, the live handler writes the
stored status `"failed"`. -/
theorem c1_counterexample :
    processEvent fxClock fxEvAgentFailed fxStatePlain ≠
      handleEvent fxClock fxEvAgentFailed.type fxEvAgentFailed.data fxStatePlain := by
  intro h
  have h1 : agentStatus (processEvent fxClock fxEvAgentFailed fxStatePlain) "a" =
      some (some "complete") := rfl
  rw [h] at h1
  have h2 : agentStatus (handleEvent fxClock fxEvAgentFailed.type fxEvAgentFailed.data
      fxStatePlain) "a" = some (some "failed") := rfl
  rw [h2] at h1
  exact absurd h1 (by decide)

/-- C1 amended: replay invokes the state-update contract exactly once per
event in stored order (the replay run is the left fold of `processEvent`
over the events, after the up-front start-time write), and at the same
clock instant the per-event replay effect equals the live handler's effect
for `tool_called`, `data_received`, `session_complete`, `final_result` and
`session_error` events, for `agent_spawned` events carrying a truthy
`agent_id`, and for `session_started` when replay's up-front start-time
write is taken together with the event.  The remaining divergences are
forced by the code: on `tool_result` replay completes the tool with only
status and row count, omitting the result payload the live handler
attaches; on `agent_complete` replay writes status `"complete"`
unconditionally while the live handler copies the stored status; on
`agent_spawned` without a truthy `agent_id` replay stores the payload's
`agent_id` verbatim while the live handler substitutes a timestamp-based
id. -/
theorem c1_replay_vs_live :
    (∀ (clock : Clock) (cache : SessionCache) (s : StoreState),
        replayCache clock cache s =
          cache.events.foldl (fun st e => processEvent clock e st)
            (setStartTime s clock.now)) ∧
    (∀ (clock : Clock) (e : CacheEvent) (s : StoreState),
        (e.type = EventType.tool_called ∨ e.type = EventType.data_received ∨
          e.type = EventType.session_complete ∨ e.type = EventType.final_result ∨
          e.type = EventType.session_error) →
        processEvent clock e s = handleEvent clock e.type e.data s) ∧
    (∀ (clock : Clock) (e : CacheEvent) (s : StoreState),
        e.type = EventType.agent_spawned → strTruthy e.data.agent_id = true →
        processEvent clock e s = handleEvent clock e.type e.data s) ∧
    (∀ (clock : Clock) (e : CacheEvent) (s : StoreState),
        e.type = EventType.session_started →
        processEvent clock e (setStartTime s clock.now) =
          handleEvent clock e.type e.data s) := by
  refine ⟨?_, ?_, ?_, ?_⟩
  · intro clock cache s
    exact replayLoop_eq_foldl clock cache.events (setStartTime s clock.now)
  · intro clock e s htype
    rcases e with ⟨t, d, ts, dl⟩
    rcases htype with h | h | h | h | h <;> subst h <;> rfl
  · intro clock e s htype htruthy
    rcases e with ⟨t, d, ts, dl⟩
    subst htype
    simp only at htruthy ⊢
    rcases hd : d.agent_id with _ | v
    · rw [hd] at htruthy; exact absurd htruthy (by simp [strTruthy])
    · rw [hd] at htruthy
      have hne : ¬ v = "" := by simpa [strTruthy] using htruthy
      simp [processEvent, handleEvent, hd, strOr, hne]
  · intro clock e s htype
    rcases e with ⟨t, d, ts, dl⟩
    subst htype
    rfl

/-- Witness for the amended C1: at a concrete `tool_called` event and
state, replay and live produce identical stores. -/
theorem c1_replay_vs_live_witness :
    processEvent fxClock fxEvToolCalled fxStatePlain =
      handleEvent fxClock fxEvToolCalled.type fxEvToolCalled.data fxStatePlain :=
  c1_replay_vs_live.2.1 fxClock fxEvToolCalled fxStatePlain (Or.inl rfl)
